import Mathlib

/-!
Verification of the SVG-to-DXF curve discretization pipeline.

The source program reads SVG documents, resolves width/height/viewBox
metadata, discretizes each parametric curve into a polyline by adaptive
uniform-parameter sampling, deduplicates consecutive near-identical points,
and emits each surviving chain as an LWPOLYLINE.

Modelling conventions:
- Python floats are idealized as rationals (ℚ); comparisons and division
  are exact. Division by zero yields 0 in ℚ (the source never guards this
  case and no verified property depends on it).
- Python `int()` on a float truncates toward zero; modelled by `pyint`.
- Python `float(str)` is an external library primitive; it is modelled by
  `pyfloat`, an executable parser for finite decimal literals (optional
  sign, digits with optional fractional part and optional exponent).
  Special Python forms (inf/nan, underscores, surrounding whitespace) are
  not modelled; no verified property depends on them.
- A parametric curve (svgpathtools path) is opaque: it supports a total
  arc-length query and a point-at-parameter query, modelled as the fields
  of `Curve`.
- Exceptions propagating out of the per-file pipeline are modelled by
  `Option`: `none` means the file aborts with an unrecovered error.
-/

/-- A 2D point in physical (mm) coordinates. The source uses Python complex
numbers (`point.real`, `point.imag`); modelled as an explicit record. -/
structure Point where
  x : ℚ
  y : ℚ
deriving DecidableEq

/-- An opaque parametric curve, as produced by the upstream SVG parser:
`length` is `path.length()` (arc length in viewbox user units) and
`point t` is `path.point(t)` for parameter t ∈ [0,1]. -/
structure Curve where
  length : ℚ
  point : ℚ → Point

/-- `POINTS_PER_MM = 10` from the source: target sampling density. -/
def POINTS_PER_MM : ℚ := 10

/-- Python `int()` applied to a (rational-idealized) float: truncation
toward zero. -/
def pyint (q : ℚ) : ℤ :=
  if 0 ≤ q then ⌊q⌋ else ⌈q⌉

/-- `num_samples = max(2, int(path_length_mm * POINTS_PER_MM))` from the
source. The result of the Python `max` is at least 2, hence a natural. -/
def num_samples (path_length_mm : ℚ) : ℕ :=
  (max 2 (pyint (path_length_mm * POINTS_PER_MM))).toNat

/-- `scale_factor = svg_width_mm / float(viewbox[2])` from the source. -/
def scale_factor (svg_width_mm vb2 : ℚ) : ℚ :=
  svg_width_mm / vb2

/-- The per-curve sampling loop from the source:
`for i in range(num_samples + 1): t = i / num_samples;
point = path.point(t); x = point.real * scale_factor;
y = point.imag * scale_factor; polyline_points.append((x, y))`. -/
def polyline_points (path : Curve) (scale_factor : ℚ) : List Point :=
  let path_length_mm := path.length * scale_factor
  let N := num_samples path_length_mm
  (List.range (N + 1)).map (fun (i : ℕ) =>
    let t : ℚ := (i : ℚ) / (N : ℚ)
    let point := path.point t
    Point.mk (point.x * scale_factor) (point.y * scale_factor))

/-- The keep condition of the deduplication loop: a candidate point `p` is
kept against the last kept point `q` iff
`abs(p[0] - q[0]) > 0.01 or abs(p[1] - q[1]) > 0.01`. -/
def keep (q p : Point) : Prop :=
  |p.x - q.x| > 1 / 100 ∨ |p.y - q.y| > 1 / 100

instance (q p : Point) : Decidable (keep q p) := by
  unfold keep
  infer_instance

/-- One iteration of the deduplication loop body from the source:
append `p` if the accumulated list is empty (`not unique_points`) or the
keep condition against its last element (`unique_points[-1]`) holds. -/
def dedupStep (acc : List Point) (p : Point) : List Point :=
  match acc.getLast? with
  | none => acc ++ [p]
  | some q => if keep q p then acc ++ [p] else acc

/-- `unique_points`: the deduplication loop from the source, folding the
loop body over the raw sampled points starting from the empty list. -/
def unique_points (points : List Point) : List Point :=
  points.foldl dedupStep []

/-- Recursive reformulation of the deduplication loop: `dedupFrom q l`
deduplicates `l` given that `q` is the last kept point so far. Related to
`unique_points` by `unique_points_cons`. -/
def dedupFrom (q : Point) : List Point → List Point
  | [] => []
  | p :: rest => if keep q p then p :: dedupFrom p rest else dedupFrom q rest

/-- The emission guard from the source:
`if len(unique_points) > 1: msp.add_lwpolyline(unique_points, ...)`.
Returns the polyline actually added, if any. -/
def emitChain (chain : List Point) : Option (List Point) :=
  if 1 < chain.length then some chain else none

/-- Numeric value of a list of decimal digit characters. -/
def natOfDigits (cs : List Char) : ℕ :=
  cs.foldl (fun a c => 10 * a + (c.toNat - 48)) 0

/-- Exponent suffix of a Python float literal: optional sign then a
nonempty digit run consuming the rest of the string. -/
def pyfloatExp (mant : ℚ) (cs : List Char) : Option ℚ :=
  let signAndRest : Bool × List Char :=
    match cs with
    | '+' :: rest => (false, rest)
    | '-' :: rest => (true, rest)
    | rest => (false, rest)
  let ds := signAndRest.2.span Char.isDigit
  if ds.1.isEmpty || !ds.2.isEmpty then none
  else if signAndRest.1 then some (mant / 10 ^ natOfDigits ds.1)
  else some (mant * 10 ^ natOfDigits ds.1)

/-- Model of the Python `float(str)` library primitive, restricted to
finite decimal literals: optional sign, then digits with an optional
decimal point (at least one digit overall), then an optional exponent.
Returns `none` exactly when Python raises `ValueError` on such inputs. -/
def pyfloat (s : String) : Option ℚ :=
  let signAndRest : ℚ × List Char :=
    match s.toList with
    | '+' :: rest => (1, rest)
    | '-' :: rest => (-1, rest)
    | rest => (1, rest)
  let ipSplit := signAndRest.2.span Char.isDigit
  let fpSplit : List Char × List Char :=
    match ipSplit.2 with
    | '.' :: rest => rest.span Char.isDigit
    | rest => ([], rest)
  if ipSplit.1.isEmpty && fpSplit.1.isEmpty then none
  else
    let mant : ℚ :=
      signAndRest.1 *
        ((natOfDigits ipSplit.1 : ℚ) + (natOfDigits fpSplit.1 : ℚ) / 10 ^ fpSplit.1.length)
    match fpSplit.2 with
    | [] => some mant
    | 'e' :: rest => pyfloatExp mant rest
    | 'E' :: rest => pyfloatExp mant rest
    | _ => none

/-- Width/height resolution from the source: if the string ends with the
two characters of the millimeter suffix, strip them (`width[:-2]`) and
parse the remainder; otherwise parse the raw string. -/
def parse_mm_dim (s : String) : Option ℚ :=
  match s.toList.reverse with
  | 'm' :: 'm' :: rest => pyfloat (String.mk rest.reverse)
  | _ => pyfloat s

/-- Helper for `pysplit`: splits on whitespace runs, dropping empty
fields, accumulating the current field in reverse. -/
def pysplitAux : List Char → List Char → List String
  | [], acc => if acc.isEmpty then [] else [String.mk acc.reverse]
  | c :: rest, acc =>
    if c.isWhitespace then
      (if acc.isEmpty then [] else [String.mk acc.reverse]) ++ pysplitAux rest []
    else pysplitAux rest (c :: acc)

/-- Python `str.split()` with no argument, as used on the viewBox string:
split on whitespace runs, no empty fields. -/
def pysplit (s : String) : List String :=
  pysplitAux s.toList []

/-- The three SVG attributes consulted by the source
(`svg_attributes.get(...)`); each may be absent. -/
structure SvgAttributes where
  width : Option String
  height : Option String
  viewBox : Option String

/-- The per-path loop body from the source, up to and including
deduplication: read `viewbox[2]` (IndexError if absent), parse it
(ValueError if non-numeric), build the scale factor, sample, dedup.
Failures propagate as `none`. -/
def processPath (svg_width_mm : ℚ) (viewbox : List String) (path : Curve) :
    Option (List Point) := do
  let vb2str ← viewbox[2]?
  let vb2 ← pyfloat vb2str
  pure (unique_points (polyline_points path (scale_factor svg_width_mm vb2)))

/-- The per-file loop over paths, in order; the first failing path aborts
the file (no failure is caught in the source). -/
def processPaths (svg_width_mm : ℚ) (viewbox : List String) :
    List Curve → Option (List (List Point))
  | [] => some []
  | path :: rest => do
    let chain ← processPath svg_width_mm viewbox path
    let chains ← processPaths svg_width_mm viewbox rest
    pure (chain :: chains)

/-- Result of processing one file: resolved dimensions, the deduplicated
chain of every path, and the polylines actually emitted (chains with more
than one point). -/
structure FileOutput where
  svg_width_mm : ℚ
  svg_height_mm : ℚ
  chains : List (List Point)
  polylines : List (List Point)
deriving DecidableEq

/-- The per-file pipeline from the source: resolve width, height and
viewBox with their defaults, parse the dimensions, process every path.
`none` models an uncaught exception aborting the file. -/
def processFile (a : SvgAttributes) (paths : List Curve) : Option FileOutput := do
  let width := a.width.getD ("21.6mm")
  let height := a.height.getD ("37.8mm")
  let viewbox := pysplit (a.viewBox.getD ("-40 -30 12 21"))
  let svg_width_mm ← parse_mm_dim width
  let svg_height_mm ← parse_mm_dim height
  let chains ← processPaths svg_width_mm viewbox paths
  pure ⟨svg_width_mm, svg_height_mm, chains, chains.filterMap emitChain⟩

/-- Concrete curve used to instantiate universally quantified results: the
segment t ↦ (t, 0) reported with arc length 0. -/
def lineCurve : Curve :=
  ⟨0, fun t => ⟨t, 0⟩⟩

/-- Concrete curve of arc length 24 (the end-to-end scenario's curve). -/
def curve24 : Curve :=
  ⟨24, fun t => ⟨t, t⟩⟩

/-- Concrete zero-length curve sitting at the origin. -/
def zeroCurve : Curve :=
  ⟨0, fun _ => ⟨0, 0⟩⟩

/-! Helper lemmas. -/

theorem pyint_max_two (q : ℚ) : max 2 (pyint q) = max 2 ⌊q⌋ := by
  unfold pyint
  split
  · rfl
  · next h =>
    have hq : q ≤ 0 := le_of_lt (not_le.mp h)
    have h1 : ⌈q⌉ ≤ 0 := Int.ceil_le.mpr (by exact_mod_cast hq)
    have h2 : ⌊q⌋ ≤ 0 := Int.floor_nonpos hq
    rw [max_eq_left (by omega), max_eq_left (by omega)]

theorem pyint_mono {a b : ℚ} (h : a ≤ b) : pyint a ≤ pyint b := by
  unfold pyint
  by_cases ha : 0 ≤ a <;> by_cases hb : 0 ≤ b <;> simp only [ha, hb, if_pos, if_neg, if_true, if_false]
  · exact Int.floor_le_floor h
  · exact absurd (le_trans ha h) hb
  · exact le_trans (Int.ceil_le.mpr (by exact_mod_cast le_of_lt (not_le.mp ha)))
      (Int.floor_nonneg.mpr hb)
  · exact Int.ceil_le_ceil h

/-! Claim theorems. -/

/-- C1: for every curve and scale factor, the sample count equals
max(2, floor(physical length in mm × 10)), and is always at least 2,
including for a curve of length 0. -/
theorem num_samples_spec (c : Curve) (sf : ℚ) :
    (num_samples (c.length * sf) : ℤ) = max 2 ⌊c.length * sf * 10⌋ ∧
    2 ≤ num_samples (c.length * sf) := by
  constructor
  · unfold num_samples
    rw [Int.toNat_of_nonneg (le_trans (by norm_num) (le_max_left 2 _))]
    rw [pyint_max_two]
    norm_num [POINTS_PER_MM]
  · unfold num_samples
    have h : (2 : ℤ) ≤ max 2 (pyint (c.length * sf * POINTS_PER_MM)) := le_max_left _ _
    omega

/-- C3: the scale factor is the resolved declared width divided by the
viewbox width, plain division with no rounding; for width 21.6 and viewbox
width 12 it equals 1.8. -/
theorem scale_factor_spec :
    (∀ svg_width_mm vb2 : ℚ, scale_factor svg_width_mm vb2 = svg_width_mm / vb2) ∧
    scale_factor (216 / 10) 12 = 18 / 10 := by
  constructor
  · intro w v
    rfl
  · norm_num [scale_factor]

/-- C9: the sample count is monotone in the physical length: a strictly
shorter curve never gets more samples at the fixed density. -/
theorem num_samples_monotone (L1 L2 : ℚ) (h : L1 < L2) :
    num_samples L1 ≤ num_samples L2 := by
  unfold num_samples
  have hm : pyint (L1 * POINTS_PER_MM) ≤ pyint (L2 * POINTS_PER_MM) := by
    apply pyint_mono
    have : (0 : ℚ) < POINTS_PER_MM := by norm_num [POINTS_PER_MM]
    exact le_of_lt (mul_lt_mul_of_pos_right h this)
  omega

/-- C9 witness: lengths 1 < 2 give sample counts 10 ≤ 20. -/
theorem num_samples_monotone_witness :
    (1 : ℚ) < 2 ∧ num_samples 1 ≤ num_samples 2 :=
  ⟨by norm_num, num_samples_monotone 1 2 (by norm_num)⟩

theorem dedupStep_getLast_some (acc : List Point) (q p : Point)
    (h : acc.getLast? = some q) :
    dedupStep acc p = if keep q p then acc ++ [p] else acc := by
  unfold dedupStep
  rw [h]

theorem foldl_dedupStep_eq (l : List Point) :
    ∀ (acc : List Point) (q : Point), acc.getLast? = some q →
      l.foldl dedupStep acc = acc ++ dedupFrom q l := by
  induction l with
  | nil =>
    intro acc q _
    simp [dedupFrom]
  | cons p rest ih =>
    intro acc q h
    rw [List.foldl_cons, dedupStep_getLast_some acc q p h]
    by_cases hc : keep q p
    · rw [if_pos hc, ih (acc ++ [p]) p (by simp)]
      simp [dedupFrom, hc]
    · rw [if_neg hc, ih acc q h]
      simp [dedupFrom, hc]

theorem unique_points_cons (p : Point) (rest : List Point) :
    unique_points (p :: rest) = p :: dedupFrom p rest := by
  unfold unique_points
  rw [List.foldl_cons]
  have h1 : dedupStep [] p = [p] := rfl
  rw [h1, foldl_dedupStep_eq rest [p] p rfl]
  rfl

theorem chain_dedupFrom (l : List Point) :
    ∀ q : Point, List.Chain keep q (dedupFrom q l) := by
  induction l with
  | nil =>
    intro q
    exact List.Chain.nil
  | cons p rest ih =>
    intro q
    by_cases hc : keep q p
    · simp only [dedupFrom, if_pos hc]
      exact List.Chain.cons hc (ih p)
    · simp only [dedupFrom, if_neg hc]
      exact ih q

theorem dedupFrom_eq_of_chain (l : List Point) :
    ∀ q : Point, List.Chain keep q l → dedupFrom q l = l := by
  induction l with
  | nil =>
    intro q _
    rfl
  | cons p rest ih =>
    intro q h
    obtain ⟨h1, h2⟩ := List.chain_cons.mp h
    simp only [dedupFrom, if_pos h1, ih p h2]

/-- C5: the deduplicator is idempotent: running it on its own output
changes nothing. -/
theorem unique_points_idempotent (points : List Point) :
    unique_points (unique_points points) = unique_points points := by
  cases points with
  | nil => rfl
  | cons p rest =>
    rw [unique_points_cons, unique_points_cons,
      dedupFrom_eq_of_chain _ p (chain_dedupFrom rest p)]

/-- C4 counterexample: a point whose differences from the last kept point
are exactly 0.01 on both axes is DROPPED by the deduplicator, not kept as
the claim states (the strict `>` comparison fails at the tolerance). -/
theorem dedup_tolerance_cex :
    unique_points [⟨0, 0⟩, ⟨1 / 100, 1 / 100⟩] = [⟨0, 0⟩] ∧
    unique_points [⟨0, 0⟩, ⟨1 / 100, 1 / 100⟩] ≠ [⟨0, 0⟩, ⟨1 / 100, 1 / 100⟩] := by
  with_unfolding_all decide

/-- C4 (amended): a two-point chain keeps its second point iff one of its
axis differences strictly exceeds 0.01 (strict `>` combined with OR); a
point at exactly 0.01 on both axes is dropped, and one at 0.009 on both
axes is dropped. -/
theorem dedup_tolerance_boundary :
    (∀ q p : Point, unique_points [q, p] = if keep q p then [q, p] else [q]) ∧
    unique_points [⟨0, 0⟩, ⟨1 / 100, 1 / 100⟩] = [⟨0, 0⟩] ∧
    unique_points [⟨0, 0⟩, ⟨9 / 1000, 9 / 1000⟩] = [⟨0, 0⟩] ∧
    (∀ q p : Point, keep q p ↔ (|p.x - q.x| > 1 / 100 ∨ |p.y - q.y| > 1 / 100)) := by
  refine ⟨?_, by with_unfolding_all decide, by with_unfolding_all decide, fun q p => Iff.rfl⟩
  intro q p
  rw [unique_points_cons]
  by_cases hc : keep q p
  · simp only [dedupFrom, if_pos hc]
  · simp only [dedupFrom, if_neg hc]

/-- C2: the discretizer outputs exactly N+1 points, and the i-th point
(0 ≤ i ≤ N) is the curve's point at parameter i/N with both coordinates
multiplied by the scale factor. -/
theorem polyline_points_spec (c : Curve) (sf : ℚ) :
    (polyline_points c sf).length = num_samples (c.length * sf) + 1 ∧
    (∀ i : ℕ, i ≤ num_samples (c.length * sf) →
      (polyline_points c sf)[i]? =
        some ⟨(c.point ((i : ℚ) / (num_samples (c.length * sf) : ℚ))).x * sf,
              (c.point ((i : ℚ) / (num_samples (c.length * sf) : ℚ))).y * sf⟩) := by
  constructor
  · simp only [polyline_points]
    rw [List.length_map, List.length_range]
  · intro i hi
    simp only [polyline_points, List.getElem?_map,
      List.getElem?_range (Nat.lt_succ_of_le hi), Option.map_some']

/-- C2 witness: the sampled polyline of `lineCurve` at scale factor 1 has
its point at index 1 equal to the scaled curve point at t = 1/N. -/
theorem polyline_points_spec_witness :
    1 ≤ num_samples (lineCurve.length * 1) ∧
    (polyline_points lineCurve 1)[1]? =
      some ⟨(lineCurve.point ((1 : ℚ) / (num_samples (lineCurve.length * 1) : ℚ))).x * 1,
            (lineCurve.point ((1 : ℚ) / (num_samples (lineCurve.length * 1) : ℚ))).y * 1⟩ :=
  ⟨by with_unfolding_all decide,
   (polyline_points_spec lineCurve 1).2 1 (by with_unfolding_all decide)⟩

/-- C6: a deduplicated chain with fewer than 2 points yields no emitted
polyline (silently, as an Option rather than an error), while a chain of
exactly 2 distinct points is emitted unchanged. -/
theorem chain_survival (chain : List Point) (p q : Point) :
    (chain.length < 2 → emitChain chain = none) ∧
    (p ≠ q → emitChain [p, q] = some [p, q]) := by
  constructor
  · intro h
    unfold emitChain
    rw [if_neg (by omega)]
  · intro _
    rfl

/-- C6 witness: the one-point chain [(0,0)] is dropped and the two-point
chain [(0,0),(1,1)] is emitted. -/
theorem chain_survival_witness :
    (([(⟨0, 0⟩ : Point)].length < 2 ∧ (⟨0, 0⟩ : Point) ≠ ⟨1, 1⟩) ∧
      emitChain [⟨0, 0⟩] = none ∧ emitChain [⟨0, 0⟩, ⟨1, 1⟩] = some [⟨0, 0⟩, ⟨1, 1⟩]) :=
  ⟨⟨by decide, by decide⟩,
   (chain_survival [⟨0, 0⟩] ⟨0, 0⟩ ⟨1, 1⟩).1 (by decide),
   (chain_survival [⟨0, 0⟩] ⟨0, 0⟩ ⟨1, 1⟩).2 (by decide)⟩

/-- C7: end-to-end scenario: width "21.6mm", height "37.8mm", viewBox
"-40 -30 12 21" and a curve of viewbox-unit length 24 give scale factor
1.8, physical length 43.2 mm, sample count 432 and 433 raw points. -/
theorem end_to_end_scenario (c : Curve) (h : c.length = 24) :
    parse_mm_dim ("21.6mm") = some (216 / 10) ∧
    parse_mm_dim ("37.8mm") = some (378 / 10) ∧
    pysplit ("-40 -30 12 21") = ["-40", "-30", "12", "21"] ∧
    pyfloat ("12") = some 12 ∧
    scale_factor (216 / 10) 12 = 18 / 10 ∧
    c.length * scale_factor (216 / 10) 12 = 432 / 10 ∧
    num_samples (c.length * scale_factor (216 / 10) 12) = 432 ∧
    (polyline_points c (scale_factor (216 / 10) 12)).length = 433 := by
  refine ⟨by with_unfolding_all decide, by with_unfolding_all decide,
    by with_unfolding_all decide, by with_unfolding_all decide,
    by with_unfolding_all decide, ?_, ?_, ?_⟩
  · rw [h]
    with_unfolding_all decide
  · rw [h]
    with_unfolding_all decide
  · simp only [polyline_points]
    rw [List.length_map, List.length_range, h]
    with_unfolding_all decide

/-- C7 witness: the concrete curve of length 24 indeed yields 433 raw
sampled points. -/
theorem end_to_end_scenario_witness :
    curve24.length = 24 ∧
    (polyline_points curve24 (scale_factor (216 / 10) 12)).length = 433 :=
  ⟨rfl, (end_to_end_scenario curve24 rfl).2.2.2.2.2.2.2⟩

/-- C8 counterexample: a non-numeric field of the viewBox string other
than the third one is NOT fatal, contrary to the claim: with first
viewBox field "x" and one curve, the file still processes successfully,
because only the third field is ever passed to the float parser. -/
theorem metadata_parse_failure_cex :
    (processFile ⟨some ("21.6mm"), some ("37.8mm"), some ("x -30 12 21")⟩
      [zeroCurve]).isSome = true := by
  with_unfolding_all decide

/-- C8 (amended): a non-numeric width or height (after stripping a
trailing millimeter suffix when present) is fatal for the file; a
non-numeric (or missing) THIRD viewBox field is fatal provided the file
has at least one curve; other viewBox fields are never parsed. -/
theorem metadata_parse_failure (a : SvgAttributes) (paths : List Curve) :
    (parse_mm_dim (a.width.getD ("21.6mm")) = none → processFile a paths = none) ∧
    (parse_mm_dim (a.height.getD ("37.8mm")) = none → processFile a paths = none) ∧
    (((pysplit (a.viewBox.getD ("-40 -30 12 21")))[2]?.bind pyfloat = none) →
      paths ≠ [] → processFile a paths = none) := by
  refine ⟨fun hw => ?_, fun hh => ?_, fun hv hp => ?_⟩
  · simp [processFile, hw]
  · cases hw : parse_mm_dim (a.width.getD ("21.6mm")) with
    | none => simp [processFile, hw]
    | some w => simp [processFile, hw, hh]
  · cases paths with
    | nil => exact absurd rfl hp
    | cons c rest =>
      cases hw : parse_mm_dim (a.width.getD ("21.6mm")) with
      | none => simp [processFile, hw]
      | some w =>
        cases hh : parse_mm_dim (a.height.getD ("37.8mm")) with
        | none => simp [processFile, hw, hh]
        | some hgt =>
          have hpp : processPath w (pysplit (a.viewBox.getD ("-40 -30 12 21"))) c
              = none := by
            unfold processPath
            cases hv2 : (pysplit (a.viewBox.getD ("-40 -30 12 21")))[2]? with
            | none => simp [hv2]
            | some s =>
              have hps : pyfloat s = none := by simpa [hv2] using hv
              simp [hv2, hps]
          simp [processFile, hw, hh, processPaths, hpp]

/-- C8 witness: a width attribute "abc" fails to parse and aborts the
file. -/
theorem metadata_parse_failure_witness :
    parse_mm_dim (((some ("abc")) : Option String).getD ("21.6mm")) = none ∧
    processFile ⟨some ("abc"), none, none⟩ [] = none :=
  ⟨by with_unfolding_all decide,
   (metadata_parse_failure ⟨some ("abc"), none, none⟩ []).1
     (by with_unfolding_all decide)⟩

/-- C10: the declared height influences nothing but the reported height:
two documents identical except for a (parseable) height value produce the
same scale factor, the same deduplicated chains and the same emitted
polylines. -/
theorem height_independence (w vb h1 h2 : Option String) (paths : List Curve)
    (hh1 : (parse_mm_dim (h1.getD ("37.8mm"))).isSome = true)
    (hh2 : (parse_mm_dim (h2.getD ("37.8mm"))).isSome = true) :
    Option.map (fun o => (o.svg_width_mm, o.chains, o.polylines))
        (processFile ⟨w, h1, vb⟩ paths) =
      Option.map (fun o => (o.svg_width_mm, o.chains, o.polylines))
        (processFile ⟨w, h2, vb⟩ paths) := by
  obtain ⟨q1, e1⟩ := Option.isSome_iff_exists.mp hh1
  obtain ⟨q2, e2⟩ := Option.isSome_iff_exists.mp hh2
  cases hw : parse_mm_dim (w.getD ("21.6mm")) with
  | none => simp [processFile, hw]
  | some wv =>
    cases hc : processPaths wv (pysplit (vb.getD ("-40 -30 12 21"))) paths with
    | none => simp [processFile, hw, e1, e2, hc]
    | some chains => simp [processFile, hw, e1, e2, hc]

/-- C10 witness: heights "37.8mm" and "100" give identical geometry on an
otherwise-default empty document. -/
theorem height_independence_witness :
    (parse_mm_dim (((some ("37.8mm")) : Option String).getD ("37.8mm"))).isSome = true ∧
    (parse_mm_dim (((some ("100")) : Option String).getD ("37.8mm"))).isSome = true ∧
    Option.map (fun o => (o.svg_width_mm, o.chains, o.polylines))
        (processFile ⟨none, some ("37.8mm"), none⟩ []) =
      Option.map (fun o => (o.svg_width_mm, o.chains, o.polylines))
        (processFile ⟨none, some ("100"), none⟩ []) :=
  ⟨by with_unfolding_all decide, by with_unfolding_all decide,
   height_independence none none (some ("37.8mm")) (some ("100")) []
     (by with_unfolding_all decide) (by with_unfolding_all decide)⟩
